import Mathlib

/-!
Verification of the PersonRegistry service in `src/api.py`: a CRUD HTTP API
over a single SQLite table
`personas (id INTEGER PRIMARY KEY AUTOINCREMENT, nombre TEXT NOT NULL,
edad INTEGER NOT NULL, puesto TEXT NOT NULL)`.

The table is embedded as a list of rows kept in rowid order together with the
AUTOINCREMENT sequence counter (`sqlite_sequence` value for `personas`): a
fresh INSERT receives rowid `seq + 1` and bumps the counter, which is what
SQLite's AUTOINCREMENT guarantees when ids are only ever assigned by the
engine.  Each handler of `api.py` becomes a pure function from the database
state; handlers that can raise `HTTPException(404)` return an
`Except ApiError` together with the post-state of the store.
-/

/-- Response model `Persona` of `api.py` (the stored row shape; `id` is always
present for persisted rows, so it is not optional here). -/
structure Persona where
  id : Int
  nombre : String
  edad : Int
  puesto : String
deriving DecidableEq, Repr

/-- Request body of POST `/personas/` (`class PersonaCreate`). -/
structure PersonaCreate where
  nombre : String
  edad : Int
  puesto : String
deriving DecidableEq, Repr

/-- Request body of PUT `/personas/{id}` (`class PersonaUpdate`): every field
optional; `none` models a field absent from the request body (pydantic
`dict(exclude_unset=True)` drops it from the update). -/
structure PersonaUpdate where
  nombre : Option String
  edad : Option Int
  puesto : Option String
deriving DecidableEq, Repr

/-- The only error kind the handlers raise themselves:
`HTTPException(status_code=404, detail="Persona no encontrada en el equipo")`. -/
inductive ApiError where
  | notFound
deriving DecidableEq, Repr

/-- The persistent store: the `personas` table rows in rowid order, plus the
AUTOINCREMENT sequence counter. -/
structure DB where
  rows : List Persona
  seq : Int
deriving DecidableEq, Repr

/-- `init_database()`: `CREATE TABLE IF NOT EXISTS` — creates an empty table
(sequence 0) when none exists, and is a no-op on an existing store. -/
def init_database (existing : Option DB) : DB :=
  existing.getD ⟨[], 0⟩

/-- POST `/personas/` (`crear_persona`): INSERT the three supplied columns;
AUTOINCREMENT assigns rowid `seq + 1` (`cursor.lastrowid`), and the handler
returns the new record including that id. -/
def crear_persona (db : DB) (persona : PersonaCreate) : Persona × DB :=
  let persona_id := db.seq + 1
  let nueva : Persona := ⟨persona_id, persona.nombre, persona.edad, persona.puesto⟩
  (nueva, ⟨db.rows ++ [nueva], persona_id⟩)

/-- GET `/personas/` (`obtener_equipo`): `SELECT * FROM personas LIMIT ? OFFSET ?`.
SQLite semantics: rows come back in rowid order; a negative OFFSET skips
nothing (hence `Int.toNat`, which clamps negatives to 0); a negative LIMIT
means no limit at all. -/
def obtener_equipo (db : DB) (skip limit : Int) : List Persona :=
  let visible := db.rows.drop skip.toNat
  if limit < 0 then visible else visible.take limit.toNat

/-- GET `/personas/{id}` (`obtener_persona`): `SELECT * FROM personas WHERE id = ?`,
404 when no row matches.  A SELECT never writes, so the post-state is `db`. -/
def obtener_persona (db : DB) (persona_id : Int) : Except ApiError Persona × DB :=
  match db.rows.find? (fun r => r.id == persona_id) with
  | some row => (.ok row, db)
  | none => (.error .notFound, db)

/-- The effect of the generated `UPDATE personas SET ... WHERE id = ?` on one
row: each column named in the SET clause takes its new value, the others —
and the id, which never appears in a SET clause — keep their prior value. -/
def aplicar_update (u : PersonaUpdate) (r : Persona) : Persona :=
  ⟨r.id, u.nombre.getD r.nombre, u.edad.getD r.edad, u.puesto.getD r.puesto⟩

/-- PUT `/personas/{id}` (`actualizar_persona`): 404 when the SELECT finds no
row; when `update_data` is empty (no field set in the body) the existing row
is returned untouched; otherwise the UPDATE rewrites every row matching the
id and the handler re-SELECTs and returns the updated row. -/
def actualizar_persona (db : DB) (persona_id : Int) (u : PersonaUpdate) :
    Except ApiError Persona × DB :=
  match db.rows.find? (fun r => r.id == persona_id) with
  | none => (.error .notFound, db)
  | some row =>
    if u.nombre = none ∧ u.edad = none ∧ u.puesto = none then
      (.ok row, db)
    else
      let rows' := db.rows.map fun r => if r.id == persona_id then aplicar_update u r else r
      let db' : DB := ⟨rows', db.seq⟩
      match rows'.find? (fun r => r.id == persona_id) with
      | some updated => (.ok updated, db')
      | none => (.error .notFound, db')

/-- DELETE `/personas/{id}` (`eliminar_persona`): 404 when the SELECT finds no
row; otherwise `DELETE FROM personas WHERE id = ?` removes every matching row
and the handler returns the snapshot read before the deletion.  The
AUTOINCREMENT counter is never decreased by a DELETE. -/
def eliminar_persona (db : DB) (persona_id : Int) : Except ApiError Persona × DB :=
  match db.rows.find? (fun r => r.id == persona_id) with
  | none => (.error .notFound, db)
  | some row => (.ok row, ⟨db.rows.filter (fun r => !(r.id == persona_id)), db.seq⟩)

/-- Sequencing of creates (used to state the list-after-N-creates property):
returns the created records in order together with the final store. -/
def crear_varias (db : DB) : List PersonaCreate → List Persona × DB
  | [] => ([], db)
  | p :: rest =>
    let paso := crear_persona db p
    let resto := crear_varias paso.2 rest
    (paso.1 :: resto.1, resto.2)

/-- Well-formedness of a store reachable through the API: rows are in strictly
increasing rowid order (hence ids are unique), and the AUTOINCREMENT counter
dominates every assigned id. -/
def DB.wf (db : DB) : Prop :=
  db.rows.Pairwise (fun a b => a.id < b.id) ∧ ∀ r ∈ db.rows, r.id ≤ db.seq

/-! ### Helper lemmas about the WHERE-id lookup -/

/-- A `WHERE id = ?` SELECT finds nothing when no row carries the id. -/
lemma find?_id_eq_none (rows : List Persona) (pid : Int)
    (h : ∀ r ∈ rows, r.id ≠ pid) :
    rows.find? (fun r => r.id == pid) = none := by
  rw [List.find?_eq_none]
  intro r hr
  simpa using h r hr

/-- After an INSERT with a fresh id strictly above every existing id, the
`WHERE id = ?` lookup for the new id returns exactly the new row. -/
lemma find?_id_append_new (rows : List Persona) (nueva : Persona) (seq : Int)
    (hle : ∀ r ∈ rows, r.id ≤ seq) (hid : nueva.id = seq + 1) :
    (rows ++ [nueva]).find? (fun r => r.id == nueva.id) = some nueva := by
  rw [List.find?_append]
  have h1 : rows.find? (fun r => r.id == nueva.id) = none := by
    rw [List.find?_eq_none]
    intro r hr
    have := hle r hr
    simp only [beq_iff_eq]
    omega
  simp [h1]

/-- C1: operating on an id with no row in `personas` makes get, update and
delete all fail with `NotFound` (HTTP 404) and with no other error kind. -/
theorem c1_missing_id_always_notFound (db : DB) (pid : Int) (u : PersonaUpdate)
    (h : ∀ r ∈ db.rows, r.id ≠ pid) :
    (obtener_persona db pid).1 = .error .notFound ∧
    (actualizar_persona db pid u).1 = .error .notFound ∧
    (eliminar_persona db pid).1 = .error .notFound := by
  have hf := find?_id_eq_none db.rows pid h
  refine ⟨?_, ?_, ?_⟩ <;>
    simp [obtener_persona, actualizar_persona, eliminar_persona, hf]

/-- Witness for C1 at a one-row store and the absent id 2. -/
theorem c1_missing_id_always_notFound_witness :
    (∀ r ∈ (⟨[⟨1, "Ana", 30, "Engineer"⟩], 1⟩ : DB).rows, r.id ≠ 2) ∧
    ((obtener_persona ⟨[⟨1, "Ana", 30, "Engineer"⟩], 1⟩ 2).1 = .error .notFound ∧
     (actualizar_persona ⟨[⟨1, "Ana", 30, "Engineer"⟩], 1⟩ 2
        ⟨some "Eva", none, none⟩).1 = .error .notFound ∧
     (eliminar_persona ⟨[⟨1, "Ana", 30, "Engineer"⟩], 1⟩ 2).1 = .error .notFound) :=
  ⟨by decide,
   c1_missing_id_always_notFound ⟨[⟨1, "Ana", 30, "Engineer"⟩], 1⟩ 2
     ⟨some "Eva", none, none⟩ (by decide)⟩

/-- C2: creating a record and then fetching the returned id succeeds and
yields exactly the created record: same id as returned, and name, age and
role equal to the supplied values. -/
theorem c2_create_then_get (db : DB) (p : PersonaCreate) (hwf : db.wf) :
    (obtener_persona (crear_persona db p).2 (crear_persona db p).1.id).1
      = .ok (crear_persona db p).1 ∧
    (crear_persona db p).1.nombre = p.nombre ∧
    (crear_persona db p).1.edad = p.edad ∧
    (crear_persona db p).1.puesto = p.puesto := by
  have hf := find?_id_append_new db.rows
    ⟨db.seq + 1, p.nombre, p.edad, p.puesto⟩ db.seq hwf.2 rfl
  exact ⟨by simp [obtener_persona, crear_persona, hf], rfl, rfl, rfl⟩

/-- Witness for C2 on the freshly initialized empty store. -/
theorem c2_create_then_get_witness :
    (init_database none).wf ∧
    ((obtener_persona (crear_persona (init_database none) ⟨"Ana", 30, "Engineer"⟩).2
        (crear_persona (init_database none) ⟨"Ana", 30, "Engineer"⟩).1.id).1
      = .ok (crear_persona (init_database none) ⟨"Ana", 30, "Engineer"⟩).1 ∧
     (crear_persona (init_database none) ⟨"Ana", 30, "Engineer"⟩).1.nombre = "Ana" ∧
     (crear_persona (init_database none) ⟨"Ana", 30, "Engineer"⟩).1.edad = 30 ∧
     (crear_persona (init_database none) ⟨"Ana", 30, "Engineer"⟩).1.puesto = "Engineer") :=
  ⟨⟨List.Pairwise.nil, by simp [init_database]⟩,
   c2_create_then_get (init_database none) ⟨"Ana", 30, "Engineer"⟩
     ⟨List.Pairwise.nil, by simp [init_database]⟩⟩

/-- The UPDATE statement rewrites the row the preceding SELECT found (applying
exactly the SET clause to it) and leaves its position, so the re-SELECT by the
same id returns that row with the update applied. -/
lemma find?_id_map_update (rows : List Persona) (pid : Int) (u : PersonaUpdate)
    (row : Persona) (h : rows.find? (fun r => r.id == pid) = some row) :
    (rows.map fun r => if r.id == pid then aplicar_update u r else r).find?
      (fun r => r.id == pid) = some (aplicar_update u row) := by
  induction rows with
  | nil => simp at h
  | cons a l ih =>
    by_cases ha : a.id = pid
    · rw [List.find?_cons_of_pos _ (by simpa using ha)] at h
      obtain rfl : a = row := by injection h
      simp only [List.map_cons, if_pos (show (a.id == pid) = true by simpa using ha)]
      exact List.find?_cons_of_pos _ (by simpa [aplicar_update] using ha)
    · rw [List.find?_cons_of_neg _ (by simpa using ha)] at h
      simp only [List.map_cons, if_neg (show ¬ (a.id == pid) = true by simpa using ha)]
      rw [List.find?_cons_of_neg _ (by simpa using ha)]
      exact ih h

/-- C3: updating an existing record with any subset of the fields applies the
supplied fields, keeps every unsupplied field (and the id) at its prior
value, returns that merged record, persists it (a subsequent get returns the
same), and keeps every other row in the store — merge-patch, not replace. -/
theorem c3_partial_update_merge_patch (db : DB) (pid : Int) (u : PersonaUpdate)
    (row : Persona)
    (hfind : db.rows.find? (fun r => r.id == pid) = some row)
    (hne : ¬(u.nombre = none ∧ u.edad = none ∧ u.puesto = none)) :
    (actualizar_persona db pid u).1 = .ok (aplicar_update u row) ∧
    (aplicar_update u row).id = row.id ∧
    (aplicar_update u row).nombre = u.nombre.getD row.nombre ∧
    (aplicar_update u row).edad = u.edad.getD row.edad ∧
    (aplicar_update u row).puesto = u.puesto.getD row.puesto ∧
    (obtener_persona (actualizar_persona db pid u).2 pid).1
      = .ok (aplicar_update u row) ∧
    ∀ r ∈ db.rows, r.id ≠ pid → r ∈ (actualizar_persona db pid u).2.rows := by
  have hmap := find?_id_map_update db.rows pid u row hfind
  have key : actualizar_persona db pid u =
      (.ok (aplicar_update u row),
       ⟨db.rows.map fun r => if r.id == pid then aplicar_update u r else r, db.seq⟩) := by
    unfold actualizar_persona
    rw [hfind]
    dsimp only
    rw [if_neg hne, hmap]
  refine ⟨?_, rfl, rfl, rfl, rfl, ?_, ?_⟩
  · rw [key]
  · rw [key]
    unfold obtener_persona
    dsimp only
    rw [hmap]
  · intro r hr hrid
    rw [key]
    exact List.mem_map.mpr ⟨r, hr, by simp [hrid]⟩

/-- Witness for C3: bump only the age of the single stored record. -/
theorem c3_partial_update_merge_patch_witness :
    ((⟨[⟨1, "Ana", 30, "Engineer"⟩], 1⟩ : DB).rows.find?
        (fun r => r.id == 1) = some ⟨1, "Ana", 30, "Engineer"⟩) ∧
    ¬((⟨none, some 31, none⟩ : PersonaUpdate).nombre = none ∧
      (⟨none, some 31, none⟩ : PersonaUpdate).edad = none ∧
      (⟨none, some 31, none⟩ : PersonaUpdate).puesto = none) ∧
    (actualizar_persona ⟨[⟨1, "Ana", 30, "Engineer"⟩], 1⟩ 1 ⟨none, some 31, none⟩).1
      = .ok (aplicar_update ⟨none, some 31, none⟩ ⟨1, "Ana", 30, "Engineer"⟩) :=
  ⟨by decide, by decide,
   (c3_partial_update_merge_patch ⟨[⟨1, "Ana", 30, "Engineer"⟩], 1⟩ 1
     ⟨none, some 31, none⟩ ⟨1, "Ana", 30, "Engineer"⟩ (by decide) (by decide)).1⟩

/-- C4: an update with an empty field set on an existing id succeeds, returns
the stored record unchanged, and leaves the store untouched. -/
theorem c4_empty_update_is_noop (db : DB) (pid : Int) (row : Persona)
    (hfind : db.rows.find? (fun r => r.id == pid) = some row) :
    actualizar_persona db pid ⟨none, none, none⟩ = (.ok row, db) := by
  simp [actualizar_persona, hfind]

/-- Witness for C4 at a one-row store. -/
theorem c4_empty_update_is_noop_witness :
    ((⟨[⟨1, "Ana", 30, "Engineer"⟩], 1⟩ : DB).rows.find?
        (fun r => r.id == 1) = some ⟨1, "Ana", 30, "Engineer"⟩) ∧
    actualizar_persona ⟨[⟨1, "Ana", 30, "Engineer"⟩], 1⟩ 1 ⟨none, none, none⟩
      = (.ok ⟨1, "Ana", 30, "Engineer"⟩, ⟨[⟨1, "Ana", 30, "Engineer"⟩], 1⟩) :=
  ⟨by decide,
   c4_empty_update_is_noop ⟨[⟨1, "Ana", 30, "Engineer"⟩], 1⟩ 1
     ⟨1, "Ana", 30, "Engineer"⟩ (by decide)⟩

/-- C5: deleting an existing id returns the snapshot of the record as stored
before removal, a subsequent get of that id fails with `NotFound`, and every
row with a different id survives. -/
theorem c5_delete_removes_row (db : DB) (pid : Int) (row : Persona)
    (hfind : db.rows.find? (fun r => r.id == pid) = some row) :
    (eliminar_persona db pid).1 = .ok row ∧
    (obtener_persona (eliminar_persona db pid).2 pid).1 = .error .notFound ∧
    ∀ r ∈ db.rows, r.id ≠ pid → r ∈ (eliminar_persona db pid).2.rows := by
  have hnone : (db.rows.filter (fun r => !(r.id == pid))).find?
      (fun r => r.id == pid) = none := by
    rw [List.find?_eq_none]
    intro r hr
    have := (List.mem_filter.mp hr).2
    simp_all
  refine ⟨?_, ?_, ?_⟩
  · simp [eliminar_persona, hfind]
  · simp [eliminar_persona, hfind, obtener_persona, hnone]
  · intro r hr hrid
    simp only [eliminar_persona, hfind]
    exact List.mem_filter.mpr ⟨hr, by simp [hrid]⟩

/-- Witness for C5 at a two-row store: delete id 1, id 2 survives. -/
theorem c5_delete_removes_row_witness :
    ((⟨[⟨1, "Ana", 30, "Engineer"⟩, ⟨2, "Luis", 25, "Designer"⟩], 2⟩ : DB).rows.find?
        (fun r => r.id == 1) = some ⟨1, "Ana", 30, "Engineer"⟩) ∧
    (eliminar_persona ⟨[⟨1, "Ana", 30, "Engineer"⟩, ⟨2, "Luis", 25, "Designer"⟩], 2⟩ 1).1
      = .ok ⟨1, "Ana", 30, "Engineer"⟩ ∧
    (obtener_persona
        (eliminar_persona
          ⟨[⟨1, "Ana", 30, "Engineer"⟩, ⟨2, "Luis", 25, "Designer"⟩], 2⟩ 1).2 1).1
      = .error .notFound :=
  ⟨by decide,
   (c5_delete_removes_row ⟨[⟨1, "Ana", 30, "Engineer"⟩, ⟨2, "Luis", 25, "Designer"⟩], 2⟩ 1
     ⟨1, "Ana", 30, "Engineer"⟩ (by decide)).1,
   (c5_delete_removes_row ⟨[⟨1, "Ana", 30, "Engineer"⟩, ⟨2, "Luis", 25, "Designer"⟩], 2⟩ 1
     ⟨1, "Ana", 30, "Engineer"⟩ (by decide)).2.1⟩

/-! ### Lemmas about sequences of creates -/

/-- Each create appends its new row at the end, so the table after a run of
creates holds the old rows followed by the created records in creation
order. -/
lemma crear_varias_rows (ps : List PersonaCreate) :
    ∀ db : DB, (crear_varias db ps).2.rows = db.rows ++ (crear_varias db ps).1 := by
  induction ps with
  | nil => intro db; simp [crear_varias]
  | cons p rest ih =>
    intro db
    simp only [crear_varias]
    rw [ih]
    simp [crear_persona]

/-- A run of creates returns one record per input. -/
lemma crear_varias_length (ps : List PersonaCreate) :
    ∀ db : DB, (crear_varias db ps).1.length = ps.length := by
  induction ps with
  | nil => intro db; simp [crear_varias]
  | cons p rest ih => intro db; simp [crear_varias, ih]

/-- C6: the list operation always succeeds; with a positive limit it returns
at most `limit` rows; it returns the empty sequence on an empty store or when
`skip` reaches the row count; and listing a store built by creating N records
(skip 0, limit at least N) returns exactly those N records in creation
order. -/
theorem c6_list_bounded_in_creation_order (db : DB) (skip limit : Int)
    (ps : List PersonaCreate) :
    (0 < limit → ((obtener_equipo db skip limit).length : Int) ≤ limit) ∧
    (db.rows = [] → obtener_equipo db skip limit = []) ∧
    ((db.rows.length : Int) ≤ skip → obtener_equipo db skip limit = []) ∧
    ((ps.length : Int) ≤ limit →
      obtener_equipo (crear_varias (init_database none) ps).2 0 limit
        = (crear_varias (init_database none) ps).1) := by
  refine ⟨?_, ?_, ?_, ?_⟩
  · intro hl
    have hnl : ¬ limit < 0 := by omega
    simp only [obtener_equipo, if_neg hnl]
    have := List.length_take (limit.toNat) (db.rows.drop skip.toNat)
    omega
  · intro h
    simp [obtener_equipo, h]
  · intro h
    have hd : db.rows.drop skip.toNat = [] :=
      List.drop_eq_nil_of_le (by omega)
    simp only [obtener_equipo, hd]
    split <;> simp
  · intro h
    have hrows := crear_varias_rows ps (init_database none)
    have hlen := crear_varias_length ps (init_database none)
    have hnl : ¬ limit < 0 := by omega
    have hinit : (init_database none).rows = [] := rfl
    simp only [obtener_equipo, if_neg hnl, Int.toNat_zero, List.drop_zero]
    rw [hrows, hinit, List.nil_append]
    exact List.take_of_length_le (by rw [hlen]; omega)

/-- Witness for C6 on the empty store and a single created record. -/
theorem c6_list_bounded_in_creation_order_witness :
    ((obtener_equipo ⟨[], 0⟩ 0 1).length : Int) ≤ 1 ∧
    obtener_equipo ⟨[], 0⟩ 0 1 = [] ∧
    obtener_equipo (crear_varias (init_database none) [⟨"Ana", 30, "Engineer"⟩]).2 0 1
      = (crear_varias (init_database none) [⟨"Ana", 30, "Engineer"⟩]).1 :=
  ⟨(c6_list_bounded_in_creation_order ⟨[], 0⟩ 0 1 [⟨"Ana", 30, "Engineer"⟩]).1
      (by decide),
   (c6_list_bounded_in_creation_order ⟨[], 0⟩ 0 1 [⟨"Ana", 30, "Engineer"⟩]).2.1 rfl,
   (c6_list_bounded_in_creation_order ⟨[], 0⟩ 0 1 [⟨"Ana", 30, "Engineer"⟩]).2.2.2
      (by decide)⟩

/-- C7: stored ids are pairwise distinct; creating preserves the store
invariant; ids grow strictly across successive creates; and an update never
changes any row's id (the generated SET clause never names the id column). -/
theorem c7_ids_unique_monotone_immutable (db : DB) (p q : PersonaCreate)
    (pid : Int) (u : PersonaUpdate) (hwf : db.wf) :
    db.rows.Pairwise (fun a b => a.id ≠ b.id) ∧
    ((crear_persona db p).2).wf ∧
    (crear_persona db p).1.id < (crear_persona (crear_persona db p).2 q).1.id ∧
    (actualizar_persona db pid u).2.rows.map Persona.id = db.rows.map Persona.id := by
  have hid_map : ∀ rows : List Persona,
      (rows.map fun r => if r.id == pid then aplicar_update u r else r).map Persona.id
        = rows.map Persona.id := by
    intro rows
    rw [List.map_map]
    refine List.map_congr_left ?_
    intro a ha
    by_cases hcond : a.id = pid <;>
      simp [Function.comp_def, hcond, aplicar_update]
  refine ⟨hwf.1.imp (fun h => ne_of_lt h), ⟨?_, ?_⟩, ?_, ?_⟩
  · refine List.pairwise_append.mpr ⟨hwf.1, List.pairwise_singleton _ _, ?_⟩
    intro a ha b hb
    have hb' : b = ⟨db.seq + 1, p.nombre, p.edad, p.puesto⟩ := by
      simpa [crear_persona] using hb
    have hbid : b.id = db.seq + 1 := by rw [hb']
    have := hwf.2 a ha
    omega
  · intro r hr
    simp only [crear_persona] at hr ⊢
    rcases List.mem_append.mp hr with h | h
    · have := hwf.2 r h
      omega
    · simp only [List.mem_singleton] at h
      have : r.id = db.seq + 1 := by rw [h]
      omega
  · simp [crear_persona]
  · unfold actualizar_persona
    cases hfind : db.rows.find? (fun r => r.id == pid) with
    | none => rfl
    | some row =>
      dsimp only
      by_cases hu : u.nombre = none ∧ u.edad = none ∧ u.puesto = none
      · rw [if_pos hu]
      · rw [if_neg hu]
        cases hfind2 : (db.rows.map fun r =>
            if r.id == pid then aplicar_update u r else r).find?
            (fun r => r.id == pid) with
        | none => exact hid_map db.rows
        | some upd => exact hid_map db.rows

/-- Witness for C7 on the freshly initialized empty store. -/
theorem c7_ids_unique_monotone_immutable_witness :
    (init_database none).wf ∧
    ((crear_persona (init_database none) ⟨"Ana", 30, "Engineer"⟩).2).wf ∧
    (crear_persona (init_database none) ⟨"Ana", 30, "Engineer"⟩).1.id
      < (crear_persona (crear_persona (init_database none) ⟨"Ana", 30, "Engineer"⟩).2
          ⟨"Luis", 25, "Designer"⟩).1.id ∧
    (actualizar_persona (init_database none) 1 ⟨some "Eva", none, none⟩).2.rows.map
        Persona.id
      = (init_database none).rows.map Persona.id :=
  ⟨⟨List.Pairwise.nil, by simp [init_database]⟩,
   (c7_ids_unique_monotone_immutable (init_database none) ⟨"Ana", 30, "Engineer"⟩
      ⟨"Luis", 25, "Designer"⟩ 1 ⟨some "Eva", none, none⟩
      ⟨List.Pairwise.nil, by simp [init_database]⟩).2⟩

/-- C8 counterexample: `crear_persona` performs no non-emptiness validation
(the request model declares plain strings), so creating with empty name and
role persists a row whose name and role are both the empty string. -/
theorem c8_counterexample_empty_strings_persisted :
    ∃ r ∈ (crear_persona (init_database none) ⟨"", 0, ""⟩).2.rows,
      r.nombre = "" ∧ r.puesto = "" :=
  ⟨⟨1, "", 0, ""⟩, by decide, rfl, rfl⟩

/-- C8 amended: create and update persist exactly the supplied name and role
strings, verbatim and without any non-emptiness check, so a persisted
record's name or role may be the empty string. -/
theorem c8_amended_strings_stored_verbatim (db : DB) (p : PersonaCreate) :
    (crear_persona db p).1.nombre = p.nombre ∧
    (crear_persona db p).1.puesto = p.puesto ∧
    (crear_persona db p).2.rows = db.rows ++ [(crear_persona db p).1] ∧
    ∀ (pid : Int) (row : Persona) (s t : String) (e : Int),
      db.rows.find? (fun r => r.id == pid) = some row →
      (actualizar_persona db pid ⟨some s, some e, some t⟩).1
        = .ok ⟨row.id, s, e, t⟩ := by
  refine ⟨rfl, rfl, rfl, ?_⟩
  intro pid row s t e hfind
  have hne : ¬((⟨some s, some e, some t⟩ : PersonaUpdate).nombre = none ∧
      (⟨some s, some e, some t⟩ : PersonaUpdate).edad = none ∧
      (⟨some s, some e, some t⟩ : PersonaUpdate).puesto = none) := by simp
  have hmap := find?_id_map_update db.rows pid ⟨some s, some e, some t⟩ row hfind
  unfold actualizar_persona
  rw [hfind]
  dsimp only
  rw [if_neg hne, hmap]
  rfl

/-- Witness for C8-amended: overwrite the one stored record with empty
strings; the stored values are taken over verbatim. -/
theorem c8_amended_strings_stored_verbatim_witness :
    ((⟨[⟨1, "Ana", 30, "Engineer"⟩], 1⟩ : DB).rows.find?
        (fun r => r.id == 1) = some ⟨1, "Ana", 30, "Engineer"⟩) ∧
    (crear_persona ⟨[⟨1, "Ana", 30, "Engineer"⟩], 1⟩ ⟨"", 0, ""⟩).1.nombre = "" ∧
    (actualizar_persona ⟨[⟨1, "Ana", 30, "Engineer"⟩], 1⟩ 1
        ⟨some "", some 0, some ""⟩).1 = .ok ⟨1, "", 0, ""⟩ :=
  ⟨by decide,
   (c8_amended_strings_stored_verbatim ⟨[⟨1, "Ana", 30, "Engineer"⟩], 1⟩ ⟨"", 0, ""⟩).1,
   (c8_amended_strings_stored_verbatim ⟨[⟨1, "Ana", 30, "Engineer"⟩], 1⟩
      ⟨"", 0, ""⟩).2.2.2 1 ⟨1, "Ana", 30, "Engineer"⟩ "" "" 0 (by decide)⟩

/-- C9: with a negative limit the list operation still succeeds and is
unbounded — SQLite treats a negative LIMIT as "no limit", so every row after
`skip` is returned. -/
theorem c9_negative_limit_returns_all (db : DB) (skip limit : Int)
    (h : limit < 0) :
    obtener_equipo db skip limit = db.rows.drop skip.toNat := by
  simp [obtener_equipo, if_pos h]

/-- Witness for C9: limit -1 on a two-row store returns both rows. -/
theorem c9_negative_limit_returns_all_witness :
    (-1 : Int) < 0 ∧
    obtener_equipo ⟨[⟨1, "Ana", 30, "Engineer"⟩, ⟨2, "Luis", 25, "Designer"⟩], 2⟩ 0 (-1)
      = [⟨1, "Ana", 30, "Engineer"⟩, ⟨2, "Luis", 25, "Designer"⟩] :=
  ⟨by decide,
   c9_negative_limit_returns_all
     ⟨[⟨1, "Ana", 30, "Engineer"⟩, ⟨2, "Luis", 25, "Designer"⟩], 2⟩ 0 (-1) (by decide)⟩

/-- C10: when get, update or delete fails with `NotFound`, the store after the
call equals the store before it — the 404 path performs no write. -/
theorem c10_notFound_path_never_writes (db : DB) (pid : Int) (u : PersonaUpdate)
    (h : ∀ r ∈ db.rows, r.id ≠ pid) :
    (obtener_persona db pid).2 = db ∧
    (actualizar_persona db pid u).2 = db ∧
    (eliminar_persona db pid).2 = db := by
  have hf := find?_id_eq_none db.rows pid h
  refine ⟨?_, ?_, ?_⟩ <;>
    simp [obtener_persona, actualizar_persona, eliminar_persona, hf]

/-- Witness for C10 at a one-row store and the absent id 7. -/
theorem c10_notFound_path_never_writes_witness :
    (∀ r ∈ (⟨[⟨1, "Ana", 30, "Engineer"⟩], 1⟩ : DB).rows, r.id ≠ 7) ∧
    ((obtener_persona ⟨[⟨1, "Ana", 30, "Engineer"⟩], 1⟩ 7).2
        = (⟨[⟨1, "Ana", 30, "Engineer"⟩], 1⟩ : DB) ∧
     (actualizar_persona ⟨[⟨1, "Ana", 30, "Engineer"⟩], 1⟩ 7
        ⟨some "Eva", none, none⟩).2 = (⟨[⟨1, "Ana", 30, "Engineer"⟩], 1⟩ : DB) ∧
     (eliminar_persona ⟨[⟨1, "Ana", 30, "Engineer"⟩], 1⟩ 7).2
        = (⟨[⟨1, "Ana", 30, "Engineer"⟩], 1⟩ : DB)) :=
  ⟨by decide,
   c10_notFound_path_never_writes ⟨[⟨1, "Ana", 30, "Engineer"⟩], 1⟩ 7
     ⟨some "Eva", none, none⟩ (by decide)⟩
